import Mathlib

/-!
Verification of the ComfyUI serverless worker `handler.py` (runpod-worker-wan).

The source is a single Python module that validates a job payload, probes the
rendering engine for readiness, uploads auxiliary images, submits a workflow,
waits on a websocket for the terminal event of the submitted prompt, and then
collects the recorded output artifacts into buckets.

Python JSON-like values are embedded as the inductive type `J`; Python
exceptions are embedded as the `Except String` monad (the error string names
the exception); network effects are parameters (oracles) supplied to each
stage.  Each Lean definition mirrors the Python function of the same name.
-/

/-- JSON-like Python values as produced by `json.loads` and handled by the
worker: `null` doubles as Python `None`, objects are ordered key/value lists. -/
inductive J where
  | null
  | bool (b : Bool)
  | num (n : Int)
  | str (s : String)
  | arr (xs : List J)
  | obj (kvs : List (String × J))

/-- First-match lookup in an object field list (Python dict access). -/
def jLookup : List (String × J) → String → Option J
  | [], _ => none
  | (k, v) :: kvs, key => if k = key then some v else jLookup kvs key

mutual

/-- Python `==` on values deserialized from JSON: `None`, strings and numbers
compare by value, booleans also equal the integers `1` and `0` (in Python
`bool` is an `int` subclass, so `True == 1` and `False == 0`), lists compare
pointwise, and dictionaries compare as Python dicts do — same size and every
key of one mapping to an equal value in the other, regardless of field order.
(JSON objects have unique keys, so size plus left-in-right containment gives
Python dict equality.) -/
def jEq : J → J → Bool
  | .null, .null => true
  | .bool a, .bool b => a == b
  | .bool a, .num n => if a then n == 1 else n == 0
  | .num n, .bool b => if b then n == 1 else n == 0
  | .num a, .num b => a == b
  | .str a, .str b => a == b
  | .arr a, .arr b => jEqList a b
  | .obj a, .obj b => a.length == b.length && jEqSub a b
  | _, _ => false
termination_by a _ => sizeOf a

/-- Pointwise equality of value lists (Python list `==`). -/
def jEqList : List J → List J → Bool
  | [], [] => true
  | a :: as, b :: bs => jEq a b && jEqList as bs
  | _, _ => false
termination_by a _ => sizeOf a

/-- Containment of the left field list in the right dictionary with values
equal under `jEq`, the per-key half of Python dict equality. -/
def jEqSub : List (String × J) → List (String × J) → Bool
  | [], _ => true
  | (k, v) :: rest, b =>
    (match jLookup b k with
     | some w => jEq v w
     | none => false) && jEqSub rest b
termination_by a _ => sizeOf a

end

/-- Total variant of Python `d.get(k)`: `null` when the key is absent or the
value is itself a dictionary miss, and `null` on non-dictionaries (used only in
statements, never where the source could raise). -/
def pyGet (j : J) (k : String) : J :=
  match j with
  | .obj kvs => (jLookup kvs k).getD J.null
  | _ => J.null

/-- Python `x.get(k)` with default `None`: raises `AttributeError` when `x` is
not a dictionary. -/
def jGetAttr (j : J) (k : String) : Except String J :=
  match j with
  | .obj kvs => .ok ((jLookup kvs k).getD J.null)
  | _ => .error "AttributeError"

/-- Python `x.get(k, d)` with an explicit default. -/
def jGetAttrD (j : J) (k : String) (d : J) : Except String J :=
  match j with
  | .obj kvs => .ok ((jLookup kvs k).getD d)
  | _ => .error "AttributeError"

/-- Test for Python `is None` on an embedded value. -/
def jIsNull : J → Bool
  | .null => true
  | _ => false

/-- Test for a dictionary value. -/
def jIsObj : J → Bool
  | .obj _ => true
  | _ => false

/-- Equality of an embedded value with a Python string literal. -/
def jEqStr (j : J) (s : String) : Bool :=
  match j with
  | .str t => t == s
  | _ => false

/-- Python truth-value testing (`if not x`): falsy values are `None`, `False`,
`0`, the empty string, the empty list and the empty dict. -/
def jFalsy : J → Bool
  | .null => true
  | .bool b => !b
  | .num n => n == 0
  | .str s => s == ""
  | .arr xs => xs.isEmpty
  | .obj kvs => kvs.isEmpty

/-- Test for key membership, Python `k in d` on a dictionary. -/
def jHasKey (j : J) (k : String) : Bool :=
  match j with
  | .obj kvs => (jLookup kvs k).isSome
  | _ => false

/-- Rendering of a value inside a Python f-string (`str(x)`); the exact
rendering of containers is irrelevant to every claim. -/
def jstr : J → String
  | .null => "None"
  | .bool true => "True"
  | .bool false => "False"
  | .num n => toString n
  | .str s => s
  | .arr _ => "[...]"
  | .obj _ => "\x7b...\x7d"

/-- Engine address, the `COMFY_HOST` default of the source module. -/
def COMFY_HOST : String := "127.0.0.1:8188"

/-- Readiness retry budget, the `CHECK_RETRIES` default of the source module. -/
def CHECK_RETRIES : Nat := 500

/-! ## Input Validator (`validate_input`) -/

/-- Outcome of `validate_input`: the normalized record, a returned error
message, or an uncaught Python exception. -/
inductive VResult where
  | valid (v : J)
  | invalid (msg : String)
  | raised (msg : String)

/-- Shape test the source applies to a present `images` field:
`isinstance(images, list) and all(isinstance(i, dict) and "name" in i and
"image" in i for i in images)`.  Values of the two keys are not inspected. -/
def imagesShapeOk : J → Bool
  | .arr xs => xs.all (fun e => jIsObj e && jHasKey e "name" && jHasKey e "image")
  | _ => false

/-- Error message for a malformed `images` field. -/
def imagesErrMsg : String :=
  "\x27images\x27 must be a list of objects with \x27name\x27 and \x27image\x27 keys"

/-- Body of `validate_input` after the `None` and string cases: field access
`job_input.get(...)` raises `AttributeError` unless the payload is a dict. -/
def validate_body (job_input : J) : VResult :=
  match job_input with
  | .obj kvs =>
    let workflow := (jLookup kvs "workflow").getD J.null
    if jIsNull workflow then .invalid "Missing \x27workflow\x27 parameter"
    else
      let images := (jLookup kvs "images").getD J.null
      if !jIsNull images && !imagesShapeOk images then .invalid imagesErrMsg
      else
        .valid (J.obj [("workflow", workflow), ("images", images),
          ("comfy_org_api_key", (jLookup kvs "comfy_org_api_key").getD J.null)])
  | _ => .raised "AttributeError"

/-- Embedding of `validate_input`; `parse` is the `json.loads` oracle applied
to string payloads, `none` meaning a `JSONDecodeError`. -/
def validate_input (parse : String → Option J) (job_input : J) : VResult :=
  match job_input with
  | .null => .invalid "Please provide input"
  | .str s =>
    match parse s with
    | none => .invalid "Invalid JSON format in input"
    | some j => validate_body j
  | j => validate_body j

/-! ## Readiness Prober (`check_server`) -/

/-- Probe outcome for one readiness attempt: `none` models a raised
`requests.RequestException`, `some c` an HTTP response with status `c`. -/
def probeOk (p : Option Nat) : Bool :=
  match p with
  | some c => c == 200
  | none => false

/-- Loop of `check_server`: `fuel` attempts remain, `i` attempts were already
made; returns the result together with the number of attempts consumed. -/
def check_server_go (probe : Nat → Option Nat) : Nat → Nat → Bool × Nat
  | 0, i => (false, i)
  | fuel + 1, i =>
    if probeOk (probe i) then (true, i + 1)
    else check_server_go probe fuel (i + 1)

/-- Embedding of `check_server` instrumented with the attempt count; `probe i`
is the outcome of the i-th GET against the engine base endpoint. -/
def check_server_run (retries : Nat) (probe : Nat → Option Nat) : Bool × Nat :=
  check_server_go probe retries 0

/-- Embedding of `check_server` as in the source: the boolean alone. -/
def check_server (retries : Nat) (probe : Nat → Option Nat) : Bool :=
  (check_server_run retries probe).1

/-! ## Data-URI stripping (`strip_data_uri`) -/

/-- Characters after the first comma, the list core of
`data.split(",", 1)[1]`. -/
def afterFirstComma : List Char → List Char
  | [] => []
  | c :: cs => if c = ',' then cs else afterFirstComma cs

/-- Embedding of `strip_data_uri`: the substring after the first comma when
one exists, the input unchanged otherwise. -/
def strip_data_uri (s : String) : String :=
  if s.data.contains ',' then ⟨afterFirstComma s.data⟩ else s

/-! ## Base64 (`base64.b64decode` non-strict, `base64.b64encode`) -/

/-- Value of a character in the standard base64 alphabet, `none` outside it
(padding `=` is handled separately by the decoder). -/
def b64Table (c : Char) : Option Nat :=
  if 'A' ≤ c && c ≤ 'Z' then some (c.toNat - 65)
  else if 'a' ≤ c && c ≤ 'z' then some (c.toNat - 97 + 26)
  else if '0' ≤ c && c ≤ '9' then some (c.toNat - 48 + 52)
  else if c = '+' then some 62
  else if c = '/' then some 63
  else none

/-- Decoder loop of CPython `binascii.a2b_base64` in non-strict mode (the mode
`base64.b64decode` uses): `quad` is the position inside the current 4-character
group, `leftc` the pending bits, `pads` the run of padding characters seen at
group position 2 or 3, `acc` the emitted bytes in reverse.  Characters outside
the alphabet are skipped; a padding run completing a group ends decoding
successfully; a group left incomplete at the end is an error. -/
def a2bGo : Nat → Nat → Nat → List Nat → List Char → Except String (List Nat)
  | quad, _, _, acc, [] =>
    if quad = 0 then .ok acc.reverse
    else if quad = 1 then
      .error "Invalid base64-encoded string: number of data characters cannot be 1 more than a multiple of 4"
    else .error "Incorrect padding"
  | quad, leftc, pads, acc, c :: cs =>
    if c = '=' then
      if 2 ≤ quad then
        if 4 ≤ quad + (pads + 1) then .ok acc.reverse
        else a2bGo quad leftc (pads + 1) acc cs
      else a2bGo quad leftc pads acc cs
    else
      match b64Table c with
      | none => a2bGo quad leftc pads acc cs
      | some v =>
        match quad with
        | 0 => a2bGo 1 v 0 acc cs
        | 1 => a2bGo 2 (v % 16) 0 ((leftc * 4 + v / 16) :: acc) cs
        | 2 => a2bGo 3 (v % 4) 0 ((leftc * 16 + v / 4) :: acc) cs
        | _ => a2bGo 0 0 0 ((leftc * 64 + v) :: acc) cs

/-- Test for an ASCII character, the codomain of `str.encode("ascii")`. -/
def isAsciiChar (c : Char) : Bool := c.toNat < 128

/-- Embedding of `base64.b64decode` applied to a text string, as the uploader
calls it: `_bytes_from_decode_data` first encodes the string as ASCII,
raising `ValueError` when any character is outside ASCII, and only then the
`binascii` decoder runs on the bytes; the error string is the Python
exception message. -/
def b64decode (s : String) : Except String (List Nat) :=
  if s.data.all isAsciiChar then a2bGo 0 0 0 [] s.data
  else .error "string argument should contain only ASCII characters"

/-- Alphabet used by the encoder. -/
def b64Alphabet : List Char :=
  "ABCDEFGHIJKLMNOPQRSTUVWXYZabcdefghijklmnopqrstuvwxyz0123456789+/".data

/-- Character of a 6-bit value. -/
def b64CharOf (n : Nat) : Char := b64Alphabet.getD n 'A'

/-- Embedding of `base64.b64encode(...).decode("utf-8")` on a byte list. -/
def b64encode : List Nat → List Char
  | [] => []
  | [b0] =>
    [b64CharOf (b0 / 4), b64CharOf (b0 % 4 * 16), '=', '=']
  | [b0, b1] =>
    [b64CharOf (b0 / 4), b64CharOf (b0 % 4 * 16 + b1 / 16),
      b64CharOf (b1 % 16 * 4), '=']
  | b0 :: b1 :: b2 :: bs =>
    b64CharOf (b0 / 4) :: b64CharOf (b0 % 4 * 16 + b1 / 16) ::
      b64CharOf (b1 % 16 * 4 + b2 / 64) :: b64CharOf (b2 % 64) :: b64encode bs

/-! ## Asset Uploader (`upload_images`) -/

/-- Loop of `upload_images` over the image list: `tr i` is the transport
outcome of the i-th POST to `/upload/image` (`none` success, `some e` a raised
`requests.RequestException` rendered as `e`).  The outer `Except` carries
uncaught Python exceptions (subscripting a non-dict element), the inner
`Option` the error string the stage returns. -/
def upload_images_go (tr : Nat → Option String) : Nat → List J → Except String (Option String)
  | _, [] => .ok none
  | i, img :: imgs =>
    match img with
    | .obj kvs =>
      match jLookup kvs "name" with
      | none => .error "KeyError"
      | some name =>
        match jLookup kvs "image" with
        | none => .error "KeyError"
        | some imageVal =>
          match b64decode (strip_data_uri (jstr imageVal)) with
          | .error e => .ok (some ("Failed to decode base64 for " ++ jstr name ++ ": " ++ e))
          | .ok _ =>
            match tr i with
            | some e => .ok (some ("Failed to upload " ++ jstr name ++ ": " ++ e))
            | none => upload_images_go tr (i + 1) imgs
    | _ => .error "TypeError"

/-- Embedding of `upload_images`: a falsy argument (absent or empty list) is a
no-op; otherwise each image is decoded and uploaded in order, first failure
aborting the stage. -/
def upload_images (tr : Nat → Option String) (images : J) : Except String (Option String) :=
  if jFalsy images then .ok none
  else
    match images with
    | .arr xs => upload_images_go tr 0 xs
    | _ => .error "TypeError"

/-! ## Job Submitter (`queue_workflow`) -/

/-- Embedding of `queue_workflow` given the engine response to the POST on
`/prompt`: `resp` is `.error` for a raised transport exception, otherwise the
HTTP status, body text and parsed JSON body.  Status 400 raises `ValueError`
with the body, any other non-success status raises through
`raise_for_status`. -/
def queue_workflow (resp : Except String (Nat × String × J)) : Except String J :=
  match resp with
  | .error e => .error e
  | .ok (status, text, body) =>
    if status == 400 then .error ("Workflow validation failed: " ++ text)
    else if 400 ≤ status then .error ("HTTP error " ++ toString status)
    else .ok body

/-! ## Completion Watcher (`wait_for_completion`) -/

/-- Inbound websocket frame: a receive timeout (the loop continues), a
non-text frame (skipped), or a text frame carrying its `json.loads` result
(`none` meaning the text is not valid JSON and `json.loads` raises). -/
inductive WsMsg where
  | timeout
  | binary
  | text (parsed : Option J)

/-- Terminal outcome of the watcher loop: normal return, the `RuntimeError`
raised on an execution-error event, any other uncaught exception, a failed
connect, or a trace that ends with the loop still waiting (the source would
block on the next receive). -/
inductive WOut where
  | completed
  | failed (msg : String)
  | raised (msg : String)
  | connectFailed
  | pending

/-- Effect of one inbound frame on the watcher loop. -/
inductive StepRes where
  | cont
  | done (o : WOut)

/-- One iteration of the `wait_for_completion` receive loop for watched prompt
identifier `pid`: timeouts and non-text frames are skipped, invalid JSON
raises, an `executing` event with null `node` and matching `prompt_id` returns,
an `execution_error` event with matching `prompt_id` raises `RuntimeError`
carrying the reported message (with a generic default), and everything else is
ignored.  Field access on a non-dict payload raises `AttributeError`. -/
def watchStep (pid : J) (m : WsMsg) : StepRes :=
  match m with
  | .timeout => .cont
  | .binary => .cont
  | .text none => .done (.raised "JSONDecodeError")
  | .text (some j) =>
    match j with
    | .obj kvs =>
      if jEqStr ((jLookup kvs "type").getD J.null) "executing" then
        match (jLookup kvs "data").getD (J.obj []) with
        | .obj pkvs =>
          if jIsNull ((jLookup pkvs "node").getD J.null)
              && jEq ((jLookup pkvs "prompt_id").getD J.null) pid then
            .done .completed
          else .cont
        | _ => .done (.raised "AttributeError")
      else if jEqStr ((jLookup kvs "type").getD J.null) "execution_error" then
        match (jLookup kvs "data").getD (J.obj []) with
        | .obj pkvs =>
          if jEq ((jLookup pkvs "prompt_id").getD J.null) pid then
            .done (.failed
              (if jFalsy ((jLookup pkvs "exception_message").getD J.null) then
                "ComfyUI execution error"
              else jstr ((jLookup pkvs "exception_message").getD J.null)))
          else .cont
        | _ => .done (.raised "AttributeError")
      else .cont
    | _ => .done (.raised "AttributeError")

/-- Receive loop of `wait_for_completion` over a finite frame trace. -/
def watchLoop (pid : J) : List WsMsg → WOut
  | [] => .pending
  | m :: ms =>
    match watchStep pid m with
    | .cont => watchLoop pid ms
    | .done o => o

/-- Result of the watcher stage together with whether an acquired websocket
connection is still open when the stage exits. -/
structure WaitRes where
  outcome : WOut
  connOpen : Bool

/-- Embedding of `wait_for_completion`: when `connectOk` is false the
`ws.connect` call raises before the `try` block, so no connection was
acquired; otherwise the receive loop runs inside `try` and the `finally`
clause closes the websocket on every exit of the loop. -/
def wait_for_completion (connectOk : Bool) (pid : J) (msgs : List WsMsg) : WaitRes :=
  if connectOk then { outcome := watchLoop pid msgs, connOpen := false }
  else { outcome := .connectFailed, connOpen := false }

/-! ## Output Collector (`fetch_history`, `fetch_output_bytes`, handler loops) -/

/-- Fetch oracle for `fetch_output_bytes`: arguments are the `filename`,
`subfolder` and `type` values passed by the collector; the result is the byte
content, or a raised transport exception. -/
def FetchOracle : Type := J → J → J → Except String (List Nat)

/-- Record appended to a bucket for one fetched artifact. -/
def artifactRecord (filename : J) (bytes : List Nat) : J :=
  J.obj [("filename", filename), ("type", J.str "base64"),
    ("data", J.str ⟨b64encode bytes⟩)]

/-- Collector loop over the `images` entries of one node output: entries whose
`type` field equals `"temp"` are skipped, entries with a falsy `filename` are
skipped, every other entry is fetched and recorded.  Field access on a
non-dict entry raises `AttributeError`. -/
def process_images (fetch : FetchOracle) : List J → Except String (List J)
  | [] => .ok []
  | info :: rest =>
    match info with
    | .obj kvs =>
      if jEqStr ((jLookup kvs "type").getD J.null) "temp" then
        process_images fetch rest
      else
        let filename := (jLookup kvs "filename").getD J.null
        if jFalsy filename then process_images fetch rest
        else
          match fetch filename ((jLookup kvs "subfolder").getD (J.str ""))
              ((jLookup kvs "type").getD J.null) with
          | .error e => .error e
          | .ok bytes =>
            match process_images fetch rest with
            | .error e => .error e
            | .ok recs => .ok (artifactRecord filename bytes :: recs)
    | _ => .error "AttributeError"

/-- Collector loop shared by the `videos` and `gifs` entries of one node
output: identical to the images loop except that no `type == "temp"` check is
performed. -/
def process_media (fetch : FetchOracle) : List J → Except String (List J)
  | [] => .ok []
  | info :: rest =>
    match info with
    | .obj kvs =>
      let filename := (jLookup kvs "filename").getD J.null
      if jFalsy filename then process_media fetch rest
      else
        match fetch filename ((jLookup kvs "subfolder").getD (J.str ""))
            ((jLookup kvs "type").getD J.null) with
        | .error e => .error e
        | .ok bytes =>
          match process_media fetch rest with
          | .error e => .error e
          | .ok recs => .ok (artifactRecord filename bytes :: recs)
    | _ => .error "AttributeError"

/-- List denoted by `node_output.get(key, [])` when the handler iterates over
it: a non-list value cannot be traversed as artifact dictionaries and raises. -/
def entryList (node : J) (key : String) : Except String (List J) :=
  match jGetAttrD node key (J.arr []) with
  | .error e => .error e
  | .ok (.arr xs) => .ok xs
  | .ok _ => .error "TypeError"

/-- Collector over the node outputs of the completed job, accumulating the
three buckets in order. -/
def collect_outputs (fetch : FetchOracle) : List J → Except String (List J × List J × List J)
  | [] => .ok ([], [], [])
  | node :: rest =>
    match entryList node "images" with
    | .error e => .error e
    | .ok imgEntries =>
      match process_images fetch imgEntries with
      | .error e => .error e
      | .ok imgs =>
        match entryList node "videos" with
        | .error e => .error e
        | .ok vidEntries =>
          match process_media fetch vidEntries with
          | .error e => .error e
          | .ok vids =>
            match entryList node "gifs" with
            | .error e => .error e
            | .ok gifEntries =>
              match process_media fetch gifEntries with
              | .error e => .error e
              | .ok gifs =>
                match collect_outputs fetch rest with
                | .error e => .error e
                | .ok (i2, v2, g2) => .ok (imgs ++ i2, vids ++ v2, gifs ++ g2)

/-- Iteration `outputs.values()` of the handler: raises unless `outputs` is a
dict, then collects over its values in order. -/
def collectAll (fetch : FetchOracle) (outputs : J) : Except String (List J × List J × List J) :=
  match outputs with
  | .obj kvs => collect_outputs fetch (kvs.map (fun kv => kv.2))
  | _ => .error "AttributeError"

/-- Distinguished result returned when all three buckets are empty. -/
def noOutputsJson : J :=
  J.obj [("status", J.str "success_no_outputs"), ("images", J.arr []),
    ("videos", J.arr []), ("gifs", J.arr [])]

/-- Response assembly of the handler from the three buckets: the distinguished
no-outputs value when all are empty, otherwise only the non-empty buckets. -/
def collect_response (imgs vids gifs : List J) : J :=
  if imgs.isEmpty && vids.isEmpty && gifs.isEmpty then noOutputsJson
  else
    J.obj ((if imgs.isEmpty then [] else [("images", J.arr imgs)]) ++
      (if vids.isEmpty then [] else [("videos", J.arr vids)]) ++
      (if gifs.isEmpty then [] else [("gifs", J.arr gifs)]))

/-- Lookup `history.get(prompt_id, {})` of the handler: the prompt identifier
is whatever JSON value the queue response carried; JSON object keys are
strings, so a non-string identifier misses and yields the default. -/
def historyEntry (history : J) (pid : J) : Except String J :=
  match history with
  | .obj kvs =>
    .ok ((match pid with
      | .str s => jLookup kvs s
      | _ => none).getD (J.obj []))
  | _ => .error "AttributeError"

/-- Collection phase of the handler (history lookup through response
assembly), lines 169 to 239 of the source. -/
def collect_phase (fetch : FetchOracle) (history : J) (pid : J) : Except String J :=
  match historyEntry history pid with
  | .error e => .error e
  | .ok entry =>
    match jGetAttrD entry "outputs" (J.obj []) with
    | .error e => .error e
    | .ok outputs =>
      match collectAll fetch outputs with
      | .error e => .error e
      | .ok (imgs, vids, gifs) => .ok (collect_response imgs vids gifs)

/-! ## Top-level pipeline (`handler`) -/

/-- External collaborators of one job run: the readiness probe outcomes, the
upload transport, the queue response, the websocket connect outcome and frame
trace, the history response, and the artifact fetch oracle. -/
structure Env where
  probe : Nat → Option Nat
  uploadTr : Nat → Option String
  queueResp : Except String (Nat × String × J)
  wsConnectOk : Bool
  wsMsgs : List WsMsg
  historyResp : Except String J
  fetch : FetchOracle

/-- Observable outcome of one handler invocation: a returned value, an
uncaught Python exception propagating to the host framework, or an invocation
that never returns because the watcher trace ended while still waiting. -/
inductive HOut where
  | ret (j : J)
  | raised (msg : String)
  | hang

/-- Error-object result, `\x7b"error": msg\x7d`. -/
def errRet (msg : String) : HOut := .ret (J.obj [("error", J.str msg)])

/-- Part of the handler inside its `try` block: submission, wait, history and
collection; every `Except` error here is caught by the `except` clause and
converted to an error object. -/
def handler_try (env : Env) : HOut :=
  match queue_workflow env.queueResp with
  | .error e => errRet e
  | .ok queued =>
    match jGetAttr queued "prompt_id" with
    | .error e => errRet e
    | .ok promptId =>
      if jFalsy promptId then
        errRet ("Missing prompt_id in queue response: " ++ jstr queued)
      else
        match (wait_for_completion env.wsConnectOk promptId env.wsMsgs).outcome with
        | .pending => .hang
        | .failed e => errRet e
        | .raised e => errRet e
        | .connectFailed => errRet "WebSocket connect failed"
        | .completed =>
          match env.historyResp with
          | .error e => errRet e
          | .ok history =>
            match collect_phase env.fetch history promptId with
            | .error e => errRet e
            | .ok response => .ret response

/-- Embedding of `handler`: the raw job object is read for its `input` field,
validated, then the pipeline runs.  Validation, the readiness gate and the
image uploads happen before the `try` block, so an exception raised there
propagates to the host framework uncaught. -/
def handler (parse : String → Option J) (env : Env) (job : J) : HOut :=
  match job with
  | .obj kvs =>
    match validate_input parse ((jLookup kvs "input").getD J.null) with
    | .raised e => .raised e
    | .invalid e => errRet e
    | .valid validated =>
      if !check_server CHECK_RETRIES env.probe then
        errRet ("ComfyUI server (" ++ COMFY_HOST ++ ") not reachable.")
      else
        match upload_images env.uploadTr (pyGet validated "images") with
        | .error e => .raised e
        | .ok (some e) => errRet e
        | .ok none => handler_try env
  | _ => .raised "AttributeError"

/-! ## Derived predicates and concrete fixtures used by the statements -/

/-- Frame that is a well-formed `executing` event with null `node` and the
watched prompt identifier, the unique trigger of a successful return. -/
def isCompletionEvent (pid : J) (m : WsMsg) : Bool :=
  match m with
  | .text (some (.obj kvs)) =>
    jEqStr ((jLookup kvs "type").getD J.null) "executing" &&
    (match (jLookup kvs "data").getD (J.obj []) with
     | .obj pkvs =>
       jIsNull ((jLookup pkvs "node").getD J.null) &&
         jEq ((jLookup pkvs "prompt_id").getD J.null) pid
     | _ => false)
  | _ => false

/-- Frame that is a well-formed `execution_error` event for the watched prompt
identifier, the unique trigger of the raised `RuntimeError`. -/
def isErrorEvent (pid : J) (m : WsMsg) : Bool :=
  match m with
  | .text (some (.obj kvs)) =>
    jEqStr ((jLookup kvs "type").getD J.null) "execution_error" &&
    (match (jLookup kvs "data").getD (J.obj []) with
     | .obj pkvs => jEq ((jLookup pkvs "prompt_id").getD J.null) pid
     | _ => false)
  | _ => false

/-- Frame that is a well-formed event whose payload names a prompt identifier
different from the watched one. -/
def carriesOtherId (pid : J) (m : WsMsg) : Bool :=
  match m with
  | .text (some (.obj kvs)) =>
    (match (jLookup kvs "data").getD (J.obj []) with
     | .obj pkvs =>
       match jLookup pkvs "prompt_id" with
       | some v => !jEq v pid
       | none => false
     | _ => false)
  | _ => false

/-- Characters `binascii.a2b_base64` retains in non-strict mode: the base64
alphabet and the padding character. -/
def keepB64 (c : Char) : Bool := (b64Table c).isSome || c == '='

/-- Fetch oracle answering two fixed bytes, for concrete runs. -/
def fetch01 : FetchOracle := fun _ _ _ => .ok [0, 1]

/-- Video artifact entry marked transient (`type` equals `"temp"`). -/
def tempVid : J :=
  J.obj [("filename", J.str "v.mp4"), ("type", J.str "temp"), ("subfolder", J.str "")]

/-- Image artifact entry marked transient. -/
def tempImg : J := J.obj [("filename", J.str "i.png"), ("type", J.str "temp")]

/-- Recorded outputs of a job whose only artifact is the transient video. -/
def tempVideoOutputs : J := J.obj [("n1", J.obj [("videos", J.arr [tempVid])])]

/-- Trivial `json.loads` oracle for runs whose payload is never a string. -/
def parse0 : String → Option J := fun _ => none

/-- Benign environment: engine ready, uploads succeed, queue returns a prompt
identifier, the socket connects, no frames arrive, the history is empty. -/
def env0 : Env where
  probe := fun _ => some 200
  uploadTr := fun _ => none
  queueResp := .ok (200, "", J.obj [("prompt_id", J.str "p")])
  wsConnectOk := true
  wsMsgs := []
  historyResp := .ok (J.obj [])
  fetch := fun _ _ _ => .ok []

/-- Completion event frame for prompt identifier `"p"`. -/
def evCompletion : WsMsg :=
  .text (some (J.obj [("type", J.str "executing"),
    ("data", J.obj [("node", J.null), ("prompt_id", J.str "p")])]))

/-- Probe sequence whose first attempt raises and whose second succeeds. -/
def probeW : Nat → Option Nat := fun i => if i = 0 then none else some 200

/-- Success test on a decode outcome (the decode did not raise). -/
def isOkB : Except String (List Nat) → Bool
  | .ok _ => true
  | .error _ => false

/-! ## Helper lemmas -/

/-- Splitting a character list at its first comma. -/
theorem afterFirstComma_split (l : List Char) (h : ',' ∈ l) :
    ∃ pre : List Char, l = pre ++ ',' :: afterFirstComma l ∧ ',' ∉ pre := by
  induction l with
  | nil => simp at h
  | cons c cs ih =>
    by_cases hc : c = ','
    · subst hc
      exact ⟨[], by simp [afterFirstComma], by simp⟩
    · have h' : ',' ∈ cs := by
        rcases List.mem_cons.mp h with h | h
        · exact absurd h.symm hc
        · exact h
      obtain ⟨pre, hpre, hnc⟩ := ih h'
      refine ⟨c :: pre, ?_, ?_⟩
      · simpa [afterFirstComma, hc] using hpre
      · simp [hnc]
        intro hcc
        exact hc hcc.symm

/-! ## Claim C8: strip_data_uri -/

/-- Claim C8: for every input string, `strip_data_uri` returns the string
unchanged when it contains no comma (hence is idempotent on such inputs), and
otherwise returns exactly the substring after the first comma, removing
exactly the prefix up to and including that comma. -/
theorem strip_data_uri_spec (s : String) :
    (',' ∉ s.data →
      strip_data_uri s = s ∧ strip_data_uri (strip_data_uri s) = strip_data_uri s) ∧
    (',' ∈ s.data →
      ∃ pre : List Char,
        s.data = pre ++ ',' :: (strip_data_uri s).data ∧ ',' ∉ pre) := by
  constructor
  · intro h
    have h1 : strip_data_uri s = s := by simp [strip_data_uri, h]
    refine ⟨h1, ?_⟩
    rw [h1]
    exact h1
  · intro h
    have hd : (strip_data_uri s).data = afterFirstComma s.data := by
      simp [strip_data_uri, h]
    rw [hd]
    exact afterFirstComma_split s.data h

/-- Witness for C8 at the input `"ab,cd"`. -/
theorem strip_data_uri_spec_witness :
    ∃ pre : List Char,
      "ab,cd".data = pre ++ ',' :: (strip_data_uri "ab,cd").data ∧ ',' ∉ pre :=
  (strip_data_uri_spec "ab,cd").2 (by decide)

/-! ## Claim C6: empty buckets yield the distinguished no-outputs value -/

/-- Claim C6: if, after processing all output entries of the completed job,
the images, videos and gifs buckets are all empty, the collection phase
returns the distinguished no-outputs success value rather than an error or
empty buckets. -/
theorem collect_empty_buckets_no_outputs (fetch : FetchOracle) (history pid entry outputs : J)
    (h1 : historyEntry history pid = .ok entry)
    (h2 : jGetAttrD entry "outputs" (J.obj []) = .ok outputs)
    (h3 : collectAll fetch outputs = .ok ([], [], [])) :
    collect_phase fetch history pid = .ok noOutputsJson := by
  simp [collect_phase, h1, h2, h3, collect_response]

/-- Witness for C6 on an empty history. -/
theorem collect_empty_buckets_no_outputs_witness :
    collect_phase (fun _ _ _ => .ok []) (J.obj []) (J.str "p") = .ok noOutputsJson :=
  collect_empty_buckets_no_outputs (fun _ _ _ => .ok []) (J.obj []) (J.str "p")
    (J.obj []) (J.obj []) rfl rfl rfl

/-! ## Claim C10: a missing history entry is a no-outputs success -/

/-- Claim C10: if the execution-history response contains no entry for the
submitted prompt identifier, or an entry with no outputs map, the collection
phase reports no error and returns the distinguished no-outputs success
value. -/
theorem missing_history_no_outputs (fetch : FetchOracle) (kvs : List (String × J)) (pid : String)
    (h : jLookup kvs pid = none ∨
      ∃ ekvs, jLookup kvs pid = some (J.obj ekvs) ∧ jLookup ekvs "outputs" = none) :
    collect_phase fetch (J.obj kvs) (J.str pid) = .ok noOutputsJson := by
  rcases h with h | ⟨ekvs, he, ho⟩
  · simp [collect_phase, historyEntry, h, jGetAttrD, jLookup, collectAll, collect_outputs,
      collect_response]
  · simp [collect_phase, historyEntry, he, jGetAttrD, ho, collectAll, collect_outputs,
      collect_response]

/-- Witness for C10 on a history that mentions only another prompt. -/
theorem missing_history_no_outputs_witness :
    collect_phase fetch01 (J.obj [("other", J.null)]) (J.str "p") = .ok noOutputsJson :=
  missing_history_no_outputs fetch01 [("other", J.null)] "p" (Or.inl rfl)

/-! ## Claim C7: the websocket is released on every exit path -/

/-- Claim C7: on every exit path of the completion watcher (terminal success
event, terminal error event, connect failure, raised exception while waiting,
or end of the frame trace) no acquired event-stream connection remains open:
the `finally` clause closes the websocket, and a failed connect acquires
none. -/
theorem watcher_releases_connection (connectOk : Bool) (pid : J) (msgs : List WsMsg) :
    (wait_for_completion connectOk pid msgs).connOpen = false := by
  cases connectOk <;> rfl

/-! ## Claim C2: a list-shaped payload escapes as an uncaught exception -/

/-- Claim C2 failing input: with a benign environment, a job whose `input`
field is a list (neither null, nor a string, nor an object) makes the handler
raise `AttributeError` out of `validate_input` before the `try` block, so the
exception propagates to the host framework instead of an error object. -/
theorem handler_raises_on_list_input :
    handler parse0 env0 (J.obj [("input", J.arr [J.num 1])]) = .raised "AttributeError" := rfl

/-! ## Claim C1: transient artifacts and the three buckets -/

/-- Counterexample to C1 as stated: a video artifact entry marked transient
(`type` equals `"temp"`) is not excluded — its record appears in the videos
bucket of the collected result. -/
theorem collector_keeps_transient_video :
    pyGet tempVid "type" = J.str "temp" ∧
      collectAll fetch01 tempVideoOutputs =
        .ok ([], [artifactRecord (J.str "v.mp4") [0, 1]], []) :=
  ⟨rfl, rfl⟩

/-- Amended C1: the transient exclusion applies to image entries only — an
image entry whose `type` field equals `"temp"` contributes no record to the
images bucket, wherever it occurs in a node output list. -/
theorem transient_images_excluded (fetch : FetchOracle) (pre post : List J) (e : J)
    (h : jEqStr (pyGet e "type") "temp" = true) :
    process_images fetch (pre ++ e :: post) = process_images fetch (pre ++ post) := by
  induction pre with
  | nil =>
    cases e with
    | obj kvs =>
      have h' : jEqStr ((jLookup kvs "type").getD J.null) "temp" = true := h
      simp [process_images, h']
    | null => simp [pyGet, jEqStr] at h
    | bool b => simp [pyGet, jEqStr] at h
    | num n => simp [pyGet, jEqStr] at h
    | str s => simp [pyGet, jEqStr] at h
    | arr xs => simp [pyGet, jEqStr] at h
  | cons p pre ih =>
    cases p with
    | obj pkvs =>
      simp only [List.cons_append, process_images, List.append_eq]
      rw [ih]
    | null => simp [process_images]
    | bool b => simp [process_images]
    | num n => simp [process_images]
    | str s => simp [process_images]
    | arr xs => simp [process_images]

/-- Witness for the amended C1 on a transient image entry. -/
theorem transient_images_excluded_witness :
    process_images fetch01 [tempImg] = process_images fetch01 [] :=
  transient_images_excluded fetch01 [] [] tempImg rfl

/-! ## Claim C4: validation of the images field -/

/-- Counterexample to C4 as stated: an `images` element whose `name` and
`image` values are numbers (not strings) is a deviation under the claim, yet
validation accepts it without the invalid-images error. -/
theorem validate_accepts_nonstring_image_fields :
    validate_input parse0
        (J.obj [("workflow", J.num 1),
          ("images", J.arr [J.obj [("name", J.num 7), ("image", J.num 8)]])]) =
      .valid (J.obj [("workflow", J.num 1),
        ("images", J.arr [J.obj [("name", J.num 7), ("image", J.num 8)]]),
        ("comfy_org_api_key", J.null)]) := rfl

/-- Amended C4: for a payload with a workflow and a present (non-null)
`images` field, validation fails with the invalid-images error exactly when
the field is not a list of dictionaries each containing `name` and `image`
keys; the values under those keys are not inspected. -/
theorem validate_images_shape_spec (parse : String → Option J) (kvs : List (String × J))
    (hw : jIsNull ((jLookup kvs "workflow").getD J.null) = false)
    (him : jIsNull ((jLookup kvs "images").getD J.null) = false) :
    (validate_input parse (J.obj kvs) = .invalid imagesErrMsg ↔
      imagesShapeOk ((jLookup kvs "images").getD J.null) = false) := by
  show (validate_body (J.obj kvs) = .invalid imagesErrMsg ↔ _)
  rw [validate_body]
  simp only [hw, him]
  cases hs : imagesShapeOk ((jLookup kvs "images").getD J.null) with
  | true => simp
  | false => simp

/-- Witness for the amended C4 on an `images` field that is a flat string. -/
theorem validate_images_shape_spec_witness :
    validate_input parse0 (J.obj [("workflow", J.num 1), ("images", J.str "flat")]) =
      .invalid imagesErrMsg :=
  (validate_images_shape_spec parse0 [("workflow", J.num 1), ("images", J.str "flat")]
    rfl rfl).mpr rfl

/-! ## Claim C5: the readiness prober -/

/-- Loop invariant: success of the probe loop is equivalent to a successful
probe within the remaining attempt window. -/
theorem check_server_go_true_iff (probe : Nat → Option Nat) (fuel : Nat) :
    ∀ i, ((check_server_go probe fuel i).1 = true ↔
      ∃ k, i ≤ k ∧ k < i + fuel ∧ probeOk (probe k) = true) := by
  induction fuel with
  | zero =>
    intro i
    rw [check_server_go]
    constructor
    · intro h; simp at h
    · rintro ⟨k, h1, h2, _⟩; omega
  | succ f ih =>
    intro i
    rw [check_server_go]
    by_cases hp : probeOk (probe i) = true
    · simp only [if_pos hp]
      simp only [true_iff]
      exact ⟨i, le_rfl, by omega, hp⟩
    · have hp' : probeOk (probe i) = false := by simpa using hp
      simp only [if_pos, if_neg hp, ih (i + 1)]
      constructor
      · rintro ⟨k, h1, h2, h3⟩
        exact ⟨k, by omega, by omega, h3⟩
      · rintro ⟨k, h1, h2, h3⟩
        refine ⟨k, ?_, by omega, h3⟩
        rcases Nat.eq_or_lt_of_le h1 with h | h
        · subst h; rw [hp'] at h3; exact Bool.noConfusion h3
        · omega

/-- Loop invariant: the loop stops at the first successful probe and reports
the number of attempts made. -/
theorem check_server_go_first (probe : Nat → Option Nat) (fuel : Nat) :
    ∀ i k, i ≤ k → k < i + fuel → probeOk (probe k) = true →
      (∀ j, i ≤ j → j < k → probeOk (probe j) = false) →
      check_server_go probe fuel i = (true, k + 1) := by
  induction fuel with
  | zero => intro i k h1 h2; omega
  | succ f ih =>
    intro i k h1 h2 h3 h4
    rw [check_server_go]
    by_cases hik : k = i
    · subst hik
      rw [if_pos h3]
    · have hi : probeOk (probe i) = false := h4 i le_rfl (by omega)
      rw [if_neg (by simp [hi])]
      exact ih (i + 1) k (by omega) (by omega) h3 (fun j hj1 hj2 => h4 j (by omega) hj2)

/-- Loop invariant: a failing run consumes the whole attempt budget. -/
theorem check_server_go_false_count (probe : Nat → Option Nat) (fuel : Nat) :
    ∀ i, (check_server_go probe fuel i).1 = false →
      (check_server_go probe fuel i).2 = i + fuel := by
  induction fuel with
  | zero => intro i _; simp [check_server_go]
  | succ f ih =>
    intro i h
    rw [check_server_go] at h ⊢
    by_cases hp : probeOk (probe i) = true
    · rw [if_pos hp] at h; cases h
    · rw [if_neg hp] at h ⊢
      have := ih (i + 1) h
      omega

/-- Claim C5: the readiness prober returns success exactly when some attempt
within the configured retry count yields a 200 status, it returns at the
first such attempt, and it returns failure only after all configured attempts
have been made without success. -/
theorem check_server_spec (retries : Nat) (probe : Nat → Option Nat) :
    (check_server retries probe = true ↔
      ∃ k, k < retries ∧ probeOk (probe k) = true) ∧
    (∀ k, k < retries → probeOk (probe k) = true →
      (∀ j, j < k → probeOk (probe j) = false) →
      check_server_run retries probe = (true, k + 1)) ∧
    (check_server retries probe = false → (check_server_run retries probe).2 = retries) := by
  refine ⟨?_, ?_, ?_⟩
  · have h := check_server_go_true_iff probe retries 0
    simpa [check_server, check_server_run] using h
  · intro k hk h1 h2
    exact check_server_go_first probe retries 0 k (by omega) (by omega) h1
      (fun j _ hj => h2 j hj)
  · intro h
    have := check_server_go_false_count probe retries 0 h
    simpa [check_server_run] using this

/-- Witness for C5: the prober succeeds at the second attempt of a budget of
two, consuming both attempts. -/
theorem check_server_spec_witness :
    check_server_run 2 probeW = (true, 2) :=
  (check_server_spec 2 probeW).2.1 1 (by omega) rfl (by decide)

/-! ## Claim C9: leniency of the base64 decoder -/

/-- Characters outside the retained set (alphabet plus padding) are discarded
by the decoder without any effect on its state. -/
theorem a2bGo_filter (l : List Char) : ∀ quad leftc pads acc,
    a2bGo quad leftc pads acc l = a2bGo quad leftc pads acc (l.filter keepB64) := by
  induction l with
  | nil => intro quad leftc pads acc; rfl
  | cons c cs ih =>
    intro quad leftc pads acc
    by_cases hk : keepB64 c = true
    · rw [List.filter_cons_of_pos hk]
      by_cases hc : c = '='
      · subst hc
        rw [a2bGo, a2bGo]
        by_cases h2 : 2 ≤ quad
        · by_cases h4 : 4 ≤ quad + (pads + 1)
          · simp [h2, h4]
          · simp only [if_pos h2, if_neg h4, if_pos rfl]
            exact ih _ _ _ _
        · simp only [if_neg h2, if_pos rfl]
          exact ih _ _ _ _
      · rw [a2bGo, a2bGo]
        simp only [if_neg hc]
        cases hbt : b64Table c with
        | none => exact ih _ _ _ _
        | some v =>
          rcases quad with _ | _ | _ | q
          · exact ih _ _ _ _
          · exact ih _ _ _ _
          · exact ih _ _ _ _
          · exact ih _ _ _ _
    · have hkk : keepB64 c = false := by simpa using hk
      have hbt : b64Table c = none := by
        rcases h : b64Table c with _ | v
        · rfl
        · rw [keepB64, h] at hkk; simp at hkk
      have hc : c ≠ '=' := by
        intro h
        rw [keepB64, h] at hkk
        simp at hkk
      rw [List.filter_cons_of_neg (by simp [hkk])]
      rw [a2bGo]
      simp only [if_neg hc, hbt]
      exact ih _ _ _ _

/-- For retained sequences made only of alphabet characters (no padding), the
decode succeeds exactly when the character count completes the current group,
that is, when the total length is a multiple of four. -/
theorem a2bGo_nopad (l : List Char) : ∀ quad leftc pads acc, quad < 4 →
    (∀ c ∈ l, (b64Table c).isSome = true) →
    (isOkB (a2bGo quad leftc pads acc l) = true ↔ (quad + l.length) % 4 = 0) := by
  induction l with
  | nil =>
    intro quad leftc pads acc hq _
    rw [a2bGo]
    rcases quad with _ | _ | _ | q
    · simp [isOkB]
    · simp [isOkB]
    · simp [isOkB]
    · have hq0 : q = 0 := by omega
      subst hq0
      simp [isOkB]
  | cons c cs ih =>
    intro quad leftc pads acc hq hall
    have hcm := hall c (List.mem_cons_self c cs)
    have hne : c ≠ '=' := by
      intro h
      rw [h] at hcm
      exact absurd hcm (by decide)
    obtain ⟨v, hv⟩ := Option.isSome_iff_exists.mp hcm
    have htail : ∀ x ∈ cs, (b64Table x).isSome = true :=
      fun x hx => hall x (List.mem_cons_of_mem c hx)
    rw [a2bGo]
    simp only [if_neg hne, hv]
    rcases quad with _ | _ | _ | q
    · rw [ih 1 v 0 acc (by omega) htail]
      simp only [List.length_cons]
      omega
    · rw [ih 2 (v % 16) 0 _ (by omega) htail]
      simp only [List.length_cons]
      omega
    · rw [ih 3 (v % 4) 0 _ (by omega) htail]
      simp only [List.length_cons]
      omega
    · have hq0 : q = 0 := by omega
      subst hq0
      rw [ih 0 0 0 _ (by omega) htail]
      simp only [List.length_cons]
      omega

/-- Counterexample to C9 as stated: the uploader's decode fails on the
one-character string `"é"` with the ASCII `ValueError`, although its retained
alphabet characters form the empty sequence, whose padding length is valid
(the empty sequence decodes successfully) — so a decode failure can arise
from a cause other than the retained padding length. -/
theorem b64decode_rejects_non_ascii :
    b64decode "é" = .error "string argument should contain only ASCII characters" ∧
    "é".data.filter keepB64 = [] ∧
    isOkB (a2bGo 0 0 0 [] ("é".data.filter keepB64)) = true :=
  ⟨rfl, rfl, rfl⟩

/-- Amended C9: within ASCII input, the base64 decoding the Asset Uploader
performs is lenient.  There is an image data string containing a character
outside the base64 alphabet (a space) that decodes without failure; on
ASCII input, characters outside the alphabet and padding are silently
discarded before decoding, so the decode outcome depends only on the
retained characters; an input with any non-ASCII character fails up front
with `ValueError` regardless of its retained content; and on padding-free
retained alphabet sequences the decode fails exactly when the retained
length is not a multiple of four (an invalid padding length). -/
theorem b64decode_lenient_ascii :
    (b64decode "aGVs bG8=" = .ok [104, 101, 108, 108, 111] ∧
      b64Table ' ' = none ∧ ' ' ∈ "aGVs bG8=".data) ∧
    (∀ s : String, s.data.all isAsciiChar = true →
      b64decode s = a2bGo 0 0 0 [] (s.data.filter keepB64)) ∧
    (∀ s : String, s.data.all isAsciiChar = false →
      b64decode s = .error "string argument should contain only ASCII characters") ∧
    (∀ l : List Char, (∀ c ∈ l, (b64Table c).isSome = true) →
      (isOkB (a2bGo 0 0 0 [] l) = true ↔ l.length % 4 = 0)) := by
  refine ⟨⟨rfl, rfl, by decide⟩, fun s h => ?_, fun s h => ?_, fun l h => ?_⟩
  · rw [b64decode, if_pos h]
    exact a2bGo_filter s.data 0 0 0 []
  · rw [b64decode, if_neg (by simp [h])]
  · have := a2bGo_nopad l 0 0 0 [] (by omega) h
    simpa using this

/-- Witness for the amended C9: the spaced ASCII input decodes exactly as
its retained characters do. -/
theorem b64decode_lenient_ascii_witness :
    b64decode "aGVs bG8=" = a2bGo 0 0 0 [] ("aGVs bG8=".data.filter keepB64) :=
  b64decode_lenient_ascii.2.1 "aGVs bG8=" (by decide)

/-! ## Claim C3: terminal transitions of the completion watcher -/

/-- Step lemma: the only frame on which one loop iteration returns success is
a completion event for the watched prompt. -/
theorem watchStep_completed (pid : J) (m : WsMsg) :
    watchStep pid m = .done .completed → isCompletionEvent pid m = true := by
  intro h
  cases m with
  | timeout => simp [watchStep] at h
  | binary => simp [watchStep] at h
  | text p =>
    cases p with
    | none => simp [watchStep] at h
    | some j =>
      cases j with
      | obj kvs =>
        rw [watchStep] at h
        by_cases h1 : jEqStr ((jLookup kvs "type").getD J.null) "executing" = true
        · rw [if_pos h1] at h
          cases hd : (jLookup kvs "data").getD (J.obj []) with
          | obj pkvs =>
            simp only [hd] at h
            by_cases h2 : (jIsNull ((jLookup pkvs "node").getD J.null)
                && jEq ((jLookup pkvs "prompt_id").getD J.null) pid) = true
            · simp [isCompletionEvent, h1, hd, h2]
            · rw [if_neg h2] at h; simp at h
          | null => simp only [hd] at h; simp at h
          | bool b => simp only [hd] at h; simp at h
          | num n => simp only [hd] at h; simp at h
          | str s => simp only [hd] at h; simp at h
          | arr xs => simp only [hd] at h; simp at h
        · rw [if_neg h1] at h
          by_cases h2 : jEqStr ((jLookup kvs "type").getD J.null) "execution_error" = true
          · rw [if_pos h2] at h
            cases hd : (jLookup kvs "data").getD (J.obj []) with
            | obj pkvs =>
              simp only [hd] at h
              by_cases h3 : jEq ((jLookup pkvs "prompt_id").getD J.null) pid = true
              · rw [if_pos h3] at h; simp at h
              · rw [if_neg h3] at h; simp at h
            | null => simp only [hd] at h; simp at h
            | bool b => simp only [hd] at h; simp at h
            | num n => simp only [hd] at h; simp at h
            | str s => simp only [hd] at h; simp at h
            | arr xs => simp only [hd] at h; simp at h
          · rw [if_neg h2] at h; simp at h
      | null => simp [watchStep] at h
      | bool b => simp [watchStep] at h
      | num n => simp [watchStep] at h
      | str s => simp [watchStep] at h
      | arr xs => simp [watchStep] at h

/-- Step lemma: the only frame on which one loop iteration raises the
execution-error `RuntimeError` is an error event for the watched prompt. -/
theorem watchStep_failed (pid : J) (m : WsMsg) (e : String) :
    watchStep pid m = .done (.failed e) → isErrorEvent pid m = true := by
  intro h
  cases m with
  | timeout => simp [watchStep] at h
  | binary => simp [watchStep] at h
  | text p =>
    cases p with
    | none => simp [watchStep] at h
    | some j =>
      cases j with
      | obj kvs =>
        rw [watchStep] at h
        by_cases h1 : jEqStr ((jLookup kvs "type").getD J.null) "executing" = true
        · rw [if_pos h1] at h
          cases hd : (jLookup kvs "data").getD (J.obj []) with
          | obj pkvs =>
            simp only [hd] at h
            by_cases h2 : (jIsNull ((jLookup pkvs "node").getD J.null)
                && jEq ((jLookup pkvs "prompt_id").getD J.null) pid) = true
            · rw [if_pos h2] at h; simp at h
            · rw [if_neg h2] at h; simp at h
          | null => simp only [hd] at h; simp at h
          | bool b => simp only [hd] at h; simp at h
          | num n => simp only [hd] at h; simp at h
          | str s => simp only [hd] at h; simp at h
          | arr xs => simp only [hd] at h; simp at h
        · rw [if_neg h1] at h
          by_cases h2 : jEqStr ((jLookup kvs "type").getD J.null) "execution_error" = true
          · rw [if_pos h2] at h
            cases hd : (jLookup kvs "data").getD (J.obj []) with
            | obj pkvs =>
              simp only [hd] at h
              by_cases h3 : jEq ((jLookup pkvs "prompt_id").getD J.null) pid = true
              · simp [isErrorEvent, h2, hd, h3]
              · rw [if_neg h3] at h; simp at h
            | null => simp only [hd] at h; simp at h
            | bool b => simp only [hd] at h; simp at h
            | num n => simp only [hd] at h; simp at h
            | str s => simp only [hd] at h; simp at h
            | arr xs => simp only [hd] at h; simp at h
          · rw [if_neg h2] at h; simp at h
      | null => simp [watchStep] at h
      | bool b => simp [watchStep] at h
      | num n => simp [watchStep] at h
      | str s => simp [watchStep] at h
      | arr xs => simp [watchStep] at h

/-- Step lemma: a frame carrying a prompt identifier different from the
watched one never causes a transition. -/
theorem watchStep_ignores_other (pid : J) (m : WsMsg) :
    carriesOtherId pid m = true → watchStep pid m = .cont := by
  intro h
  cases m with
  | timeout => simp [carriesOtherId] at h
  | binary => simp [carriesOtherId] at h
  | text p =>
    cases p with
    | none => simp [carriesOtherId] at h
    | some j =>
      cases j with
      | obj kvs =>
        rw [carriesOtherId] at h
        cases hd : (jLookup kvs "data").getD (J.obj []) with
        | obj pkvs =>
          simp only [hd] at h
          cases hp : jLookup pkvs "prompt_id" with
          | none => simp [hp] at h
          | some v =>
            simp only [hp] at h
            have hv : jEq v pid = false := by simpa using h
            rw [watchStep]
            by_cases h1 : jEqStr ((jLookup kvs "type").getD J.null) "executing" = true
            · rw [if_pos h1]
              simp [hd, hp, hv]
            · rw [if_neg h1]
              by_cases h2 : jEqStr ((jLookup kvs "type").getD J.null) "execution_error" = true
              · rw [if_pos h2]
                simp [hd, hp, hv]
              · rw [if_neg h2]
        | null => simp only [hd] at h; simp at h
        | bool b => simp only [hd] at h; simp at h
        | num n => simp only [hd] at h; simp at h
        | str s => simp only [hd] at h; simp at h
        | arr xs => simp only [hd] at h; simp at h
      | null => simp [carriesOtherId] at h
      | bool b => simp [carriesOtherId] at h
      | num n => simp [carriesOtherId] at h
      | str s => simp [carriesOtherId] at h
      | arr xs => simp [carriesOtherId] at h

/-- Loop lemma: a successful return requires a completion event for the
watched prompt somewhere in the trace. -/
theorem watchLoop_completed (pid : J) (msgs : List WsMsg) :
    watchLoop pid msgs = .completed → ∃ m ∈ msgs, isCompletionEvent pid m = true := by
  induction msgs with
  | nil => intro h; simp [watchLoop] at h
  | cons m ms ih =>
    intro h
    rw [watchLoop] at h
    cases hs : watchStep pid m with
    | cont =>
      rw [hs] at h
      obtain ⟨m2, hm2, hc⟩ := ih h
      exact ⟨m2, List.mem_cons_of_mem _ hm2, hc⟩
    | done o =>
      rw [hs] at h
      have ho : o = .completed := h
      exact ⟨m, List.mem_cons_self _ _,
        watchStep_completed pid m (by rw [hs, ho])⟩

/-- Loop lemma: the raised execution error requires an error event for the
watched prompt somewhere in the trace. -/
theorem watchLoop_failed (pid : J) (msgs : List WsMsg) (e : String) :
    watchLoop pid msgs = .failed e → ∃ m ∈ msgs, isErrorEvent pid m = true := by
  induction msgs with
  | nil => intro h; simp [watchLoop] at h
  | cons m ms ih =>
    intro h
    rw [watchLoop] at h
    cases hs : watchStep pid m with
    | cont =>
      rw [hs] at h
      obtain ⟨m2, hm2, hc⟩ := ih h
      exact ⟨m2, List.mem_cons_of_mem _ hm2, hc⟩
    | done o =>
      rw [hs] at h
      have ho : o = .failed e := h
      exact ⟨m, List.mem_cons_self _ _,
        watchStep_failed pid m e (by rw [hs, ho])⟩

/-- Claim C3: for every sequence of inbound frames, the completion watcher
reaches its success terminal only when the trace holds an `executing` event
with null node and the watched prompt identifier; it raises its failure
terminal only when the trace holds an `execution_error` event with the
watched identifier; and a frame carrying a non-matching identifier never
causes a state transition. -/
theorem watcher_terminal_events (pid : J) (msgs : List WsMsg) :
    (watchLoop pid msgs = .completed → ∃ m ∈ msgs, isCompletionEvent pid m = true) ∧
    (∀ e, watchLoop pid msgs = .failed e → ∃ m ∈ msgs, isErrorEvent pid m = true) ∧
    (∀ m, carriesOtherId pid m = true → watchStep pid m = .cont) :=
  ⟨watchLoop_completed pid msgs,
    fun e => watchLoop_failed pid msgs e,
    fun m => watchStep_ignores_other pid m⟩

/-- Witness for C3: a one-frame trace made of the completion event for prompt
`"p"` terminates the watcher and exhibits the completion event. -/
theorem watcher_terminal_events_witness :
    ∃ m ∈ [evCompletion], isCompletionEvent (J.str "p") m = true :=
  (watcher_terminal_events (J.str "p") [evCompletion]).1
    (by simp [watchLoop, watchStep, evCompletion, jLookup, jEqStr, jIsNull, jEq])
